import Mathlib

/-!
Shallow embedding of the LibreNMS API client (`src/LibreNMS.py`).

The client is a single class with a constructor and two methods:
`device_exists` (GET `{base}/api/v0/devices/{hostname}`, branch on the
status code and decoded JSON body) and `add_device` (duplicate check,
SNMP-version normalisation/validation, POST `{base}/api/v0/devices`).

HTTP traffic itself is outside the embedding: each operation is modelled
as a pure function of the decoded response it would receive, and the
request it would send (if any) is part of the function's result, so that
"issues no POST request" is the statement that this component is `none`.
-/

/-- A JSON scalar value as it appears in a decoded response body.
The bodies the code inspects carry strings (`status`) and integers
(`count`); booleans and null are included because Python compares them
with its own semantics (`True > 0` is `True`, `None > 0` raises). -/
inductive JVal where
  | jnull : JVal
  | jbool : Bool → JVal
  | jnum : Int → JVal
  | jstr : String → JVal
deriving DecidableEq, Repr

/-- A decoded HTTP response: the status code and the JSON body, the body
modelled as the key/value mapping `response.json()` yields. -/
structure Response where
  status_code : Nat
  body : List (String × JVal)
deriving DecidableEq, Repr

/-- Python `result.get(key) == someString`: `dict.get` yields `None` for a
missing key, and `None == s` as well as any non-string `== s` is `False`. -/
def pyEqStr : Option JVal → String → Bool
  | some (JVal.jstr s), t => s = t
  | _, _ => false

/-- Python `result.get(key) > 0`: an integer compares numerically, a bool
compares as the integer 0 or 1, and `None` (missing key or JSON null) or a
string raises `TypeError`, modelled as `Except.error`. -/
def pyGtZero : Option JVal → Except Unit Bool
  | some (JVal.jnum n) => Except.ok (decide (0 < n))
  | some (JVal.jbool b) => Except.ok b
  | _ => Except.error ()

/-- The ways `device_exists` can finish: return a boolean, raise the
`TypeError` from the `count` comparison, or `raise Exception(response)`
carrying the raw response. -/
inductive DeviceExistsOutcome where
  | ok : Bool → DeviceExistsOutcome
  | typeError : DeviceExistsOutcome
  | exn : Response → DeviceExistsOutcome
deriving DecidableEq, Repr

/-- `LibreNMS.device_exists`, as a function of the decoded GET response:
on 404 with `status == 'error'` return `False`; on 200 with `count > 0`
return `True`; a 200 whose `count` comparison raises propagates that
`TypeError`; everything else reaches `raise Exception(response)`. -/
def device_exists (resp : Response) : DeviceExistsOutcome :=
  if resp.status_code = 404 ∧ pyEqStr (resp.body.lookup "status") "error" = true then
    DeviceExistsOutcome.ok false
  else if resp.status_code = 200 then
    match pyGtZero (resp.body.lookup "count") with
    | Except.error _ => DeviceExistsOutcome.typeError
    | Except.ok true => DeviceExistsOutcome.ok true
    | Except.ok false => DeviceExistsOutcome.exn resp
  else
    DeviceExistsOutcome.exn resp

/-- The three sequential reassignment `if`s of `add_device`: `"1"`, `"2"`,
`"3"` become `"v1"`, `"v2c"`, `"v3"`, anything else passes through. -/
def normalize_snmp (snmp_version : String) : String :=
  let s1 := if snmp_version = "1" then "v1" else snmp_version
  let s2 := if s1 = "2" then "v2c" else s1
  if s2 = "3" then "v3" else s2

/-- The JSON payload `add_device` builds for the POST request. -/
structure Payload where
  hostname : String
  community : String
  version : String
deriving DecidableEq, Repr

/-- The ways `add_device` can finish: return a dict (either the decoded
POST response or the locally built duplicate-error mapping), raise the
`ValueError` for a bad SNMP version, or propagate a failure raised by the
inner `device_exists` call. -/
inductive AddDeviceOutcome where
  | ret : List (String × JVal) → AddDeviceOutcome
  | valueError : String → AddDeviceOutcome
  | propagated : DeviceExistsOutcome → AddDeviceOutcome
deriving DecidableEq, Repr

/-- `LibreNMS.add_device`. `getResp` is the decoded response the inner
`device_exists` call would receive; `post` maps the payload of a POST
request to the decoded response it would receive. The second component of
the result is the POST payload actually sent, `none` when no POST request
is issued. -/
def add_device (getResp : Response) (post : Payload → Response)
    (hostname community snmp_version : String) :
    AddDeviceOutcome × Option Payload :=
  match device_exists getResp with
  | DeviceExistsOutcome.ok true =>
      (AddDeviceOutcome.ret
        [("status", JVal.jstr "error"),
         ("message", JVal.jstr
           ("Device with hostname \x27" ++ hostname ++ "\x27 already exists"))],
       none)
  | DeviceExistsOutcome.ok false =>
      let v := normalize_snmp snmp_version
      if v ≠ "v1" ∧ v ≠ "v2c" ∧ v ≠ "v3" then
        (AddDeviceOutcome.valueError "SNMP version isn\x27t correct", none)
      else
        let payload : Payload :=
          { hostname := hostname, community := community, version := v }
        (AddDeviceOutcome.ret (post payload).body, some payload)
  | e => (AddDeviceOutcome.propagated e, none)

/-- Python `base_url.rstrip('/')`: remove every trailing `'/'`. -/
def rstrip_slash (s : String) : String :=
  String.mk ((s.data.reverse.dropWhile (fun c => c = '/')).reverse)

/-- The configuration the constructor stores: effective base URL, token,
headers and TLS-verify flag. Immutable after construction. -/
structure ClientConfig where
  base_url : String
  api_token : String
  headers : List (String × String)
  ssl_verify : Bool
deriving DecidableEq, Repr

/-- `LibreNMS.__init__`: strip trailing slashes from the base URL, append
the fixed `/api/v0` segment, store the token, build the fixed header set,
store the TLS-verify flag. A pure function: no request is made. -/
def LibreNMS.mkClient (base_url api_token : String) (ssl_verify : Bool) :
    ClientConfig :=
  { base_url := rstrip_slash base_url ++ "/api/v0"
  , api_token := api_token
  , headers :=
      [("X-Auth-Token", api_token),
       ("Content-Type", "application/json"),
       ("Accept", "application/json")]
  , ssl_verify := ssl_verify }

/-- C1: for every call to `device_exists` in which the response has status
200 and its JSON body carries a `count` field that is an integer greater
than 0, the operation returns `True`. -/
theorem device_exists_200_count_pos (resp : Response) (n : Int)
    (h200 : resp.status_code = 200)
    (hc : resp.body.lookup "count" = some (JVal.jnum n))
    (hn : 0 < n) :
    device_exists resp = DeviceExistsOutcome.ok true := by
  simp [device_exists, h200, hc, pyGtZero, hn]

/-- Witness for C1: the scenario of §8, status 200 with body
`{"count": 2}`, returns `True`. -/
theorem device_exists_200_count_pos_witness :
    device_exists (Response.mk 200 [("count", JVal.jnum 2)]) =
      DeviceExistsOutcome.ok true :=
  device_exists_200_count_pos (Response.mk 200 [("count", JVal.jnum 2)]) 2
    rfl rfl (by decide)

/-- C2: for every call to `device_exists` in which the response has status
404 and its JSON body's `status` field is the string `"error"`, the
operation returns `False`. -/
theorem device_exists_404_error (resp : Response)
    (h404 : resp.status_code = 404)
    (hs : resp.body.lookup "status" = some (JVal.jstr "error")) :
    device_exists resp = DeviceExistsOutcome.ok false := by
  simp [device_exists, h404, hs, pyEqStr]

/-- Witness for C2: the scenario of §8, status 404 with body
`{"status": "error"}`, returns `False`. -/
theorem device_exists_404_error_witness :
    device_exists (Response.mk 404 [("status", JVal.jstr "error")]) =
      DeviceExistsOutcome.ok false :=
  device_exists_404_error (Response.mk 404 [("status", JVal.jstr "error")])
    rfl rfl

/-- C9: a 200 response whose body has no `count` field fails with the
`TypeError` raised by comparing the missing value (`None`) with 0, not
with the generic `raise Exception(response)` path. -/
theorem device_exists_missing_count_type_error (resp : Response)
    (h200 : resp.status_code = 200)
    (hc : resp.body.lookup "count" = none) :
    device_exists resp = DeviceExistsOutcome.typeError := by
  simp [device_exists, h200, hc, pyEqStr, pyGtZero]

/-- Witness for C9: status 200 with body `{"status": "ok"}` (no `count`
field) raises the `TypeError`. -/
theorem device_exists_missing_count_type_error_witness :
    device_exists (Response.mk 200 [("status", JVal.jstr "ok")]) =
      DeviceExistsOutcome.typeError :=
  device_exists_missing_count_type_error
    (Response.mk 200 [("status", JVal.jstr "ok")]) rfl rfl

/-- Counterexample to C5 as stated: the response with status 200 and empty
body `{}` matches neither handled shape (no `count > 0`, not a 404 error),
yet `device_exists` does not fail with the generic failure carrying the
raw response — it raises the `TypeError` from `None > 0` instead. -/
theorem device_exists_missing_count_not_unexpected :
    device_exists (Response.mk 200 []) = DeviceExistsOutcome.typeError ∧
    device_exists (Response.mk 200 []) ≠
      DeviceExistsOutcome.exn (Response.mk 200 []) := by
  decide

/-- C5 (amended): for every call to `device_exists` whose response is
neither a 404 with `status: "error"` nor a 200 whose `count` field
compares greater than 0 — provided that in the 200 case the `count`
comparison itself succeeds with a non-positive result rather than raising
— the operation fails with the generic failure carrying the raw response;
in particular 200 with `count == 0` fails rather than returning `False`. -/
theorem device_exists_unexpected_response (resp : Response)
    (h404 : ¬ (resp.status_code = 404 ∧
      pyEqStr (resp.body.lookup "status") "error" = true))
    (h200 : resp.status_code = 200 →
      pyGtZero (resp.body.lookup "count") = Except.ok false) :
    device_exists resp = DeviceExistsOutcome.exn resp := by
  unfold device_exists
  rw [if_neg h404]
  by_cases h : resp.status_code = 200
  · rw [if_pos h, h200 h]
  · rw [if_neg h]

/-- Witness for C5: status 200 with body `{"count": 0}` falls through to
the generic failure carrying the raw response. -/
theorem device_exists_unexpected_response_witness :
    device_exists (Response.mk 200 [("count", JVal.jnum 0)]) =
      DeviceExistsOutcome.exn (Response.mk 200 [("count", JVal.jnum 0)]) :=
  device_exists_unexpected_response
    (Response.mk 200 [("count", JVal.jnum 0)]) (by decide) (fun _ => rfl)

theorem normalize_snmp_one : normalize_snmp "1" = "v1" := rfl

theorem normalize_snmp_two : normalize_snmp "2" = "v2c" := rfl

theorem normalize_snmp_three : normalize_snmp "3" = "v3" := rfl

/-- C3: when the existence check returns `True`, `add_device` returns (does
not raise) exactly the mapping `{status: "error", message: "Device with
hostname '<hostname>' already exists"}` and issues no POST request (the
payload component is `none`, and the result does not depend on `post`). -/
theorem add_device_duplicate_short_circuit (getResp : Response)
    (post : Payload → Response) (hostname community snmp_version : String)
    (hex : device_exists getResp = DeviceExistsOutcome.ok true) :
    add_device getResp post hostname community snmp_version =
      (AddDeviceOutcome.ret
        [("status", JVal.jstr "error"),
         ("message", JVal.jstr
           ("Device with hostname \x27" ++ hostname ++ "\x27 already exists"))],
       none) := by
  simp [add_device, hex]

/-- Witness for C3: the §8 scenario — the lookup for `host1` answers 200
with `{"count": 2}`, so `add_device` returns the duplicate-error mapping
and sends no POST payload. -/
theorem add_device_duplicate_short_circuit_witness :
    add_device (Response.mk 200 [("count", JVal.jnum 2)])
        (fun _ => Response.mk 200 []) "host1" "public" "v2c" =
      (AddDeviceOutcome.ret
        [("status", JVal.jstr "error"),
         ("message", JVal.jstr
           ("Device with hostname \x27" ++ "host1" ++ "\x27 already exists"))],
       none) :=
  add_device_duplicate_short_circuit (Response.mk 200 [("count", JVal.jnum 2)])
    (fun _ => Response.mk 200 []) "host1" "public" "v2c" rfl

/-- C4: when the device does not already exist, the SNMP versions `"1"`,
`"2"`, `"3"` are normalized to `"v1"`, `"v2c"`, `"v3"`, and the POST
payload is exactly `{hostname, community, version}` with the normalized
version. -/
theorem add_device_normalizes_versions (getResp : Response)
    (post : Payload → Response) (hostname community : String)
    (hex : device_exists getResp = DeviceExistsOutcome.ok false) :
    add_device getResp post hostname community "1" =
      (AddDeviceOutcome.ret (post (Payload.mk hostname community "v1")).body,
       some (Payload.mk hostname community "v1"))
    ∧ add_device getResp post hostname community "2" =
      (AddDeviceOutcome.ret (post (Payload.mk hostname community "v2c")).body,
       some (Payload.mk hostname community "v2c"))
    ∧ add_device getResp post hostname community "3" =
      (AddDeviceOutcome.ret (post (Payload.mk hostname community "v3")).body,
       some (Payload.mk hostname community "v3")) := by
  refine ⟨?_, ?_, ?_⟩ <;>
    simp [add_device, hex, normalize_snmp_one, normalize_snmp_two,
      normalize_snmp_three]

/-- Witness for C4: the §8 scenario — `host3` does not exist (404 with
`status: "error"`), and `snmp_version = "2"` yields a POST payload whose
`version` is `"v2c"`. -/
theorem add_device_normalizes_versions_witness :
    add_device (Response.mk 404 [("status", JVal.jstr "error")])
        (fun _ => Response.mk 201 []) "host3" "public" "2" =
      (AddDeviceOutcome.ret [], some (Payload.mk "host3" "public" "v2c")) :=
  (add_device_normalizes_versions (Response.mk 404 [("status", JVal.jstr "error")])
    (fun _ => Response.mk 201 []) "host3" "public" rfl).2.1

/-- Counterexample to C6 as stated: with an SNMP version outside the
recognized set (`"v9"`) but a lookup response saying the device exists
(200 with `count: 2`), `add_device` does not raise the `ValueError` at
all — the duplicate check runs first (after its GET) and returns the
duplicate-error mapping, never reaching the version validation. -/
theorem add_device_invalid_version_not_value_error :
    add_device (Response.mk 200 [("count", JVal.jnum 2)])
        (fun _ => Response.mk 200 []) "host1" "public" "v9" =
      (AddDeviceOutcome.ret
        [("status", JVal.jstr "error"),
         ("message", JVal.jstr
           ("Device with hostname \x27" ++ "host1" ++ "\x27 already exists"))],
       none) ∧
    add_device (Response.mk 200 [("count", JVal.jnum 2)])
        (fun _ => Response.mk 200 []) "host1" "public" "v9" ≠
      (AddDeviceOutcome.valueError "SNMP version isn\x27t correct", none) := by
  decide

/-- C6 (amended): when the existence check has completed with `False`
(the device does not exist) and the SNMP version is outside
`{"1", "2", "3", "v1", "v2c", "v3"}`, `add_device` raises
`ValueError("SNMP version isn't correct")` and issues no POST (creation)
request. The failure precedes the creation call, but not all network
activity: the existence-check GET has already been issued (and when it
reports the device exists, the duplicate mapping is returned and the
invalid version is never checked). -/
theorem add_device_invalid_snmp_version (getResp : Response)
    (post : Payload → Response) (hostname community v : String)
    (hex : device_exists getResp = DeviceExistsOutcome.ok false)
    (hv : v ∉ (["1", "2", "3", "v1", "v2c", "v3"] : List String)) :
    add_device getResp post hostname community v =
      (AddDeviceOutcome.valueError "SNMP version isn\x27t correct", none) := by
  have h1 : v ≠ "1" := fun h => hv (by simp [h])
  have h2 : v ≠ "2" := fun h => hv (by simp [h])
  have h3 : v ≠ "3" := fun h => hv (by simp [h])
  have h4 : v ≠ "v1" := fun h => hv (by simp [h])
  have h5 : v ≠ "v2c" := fun h => hv (by simp [h])
  have h6 : v ≠ "v3" := fun h => hv (by simp [h])
  have hn : normalize_snmp v = v := by simp [normalize_snmp, h1, h2, h3]
  simp [add_device, hex, hn, h4, h5, h6]

/-- Witness for C6: the §8 scenario — `snmp_version = "v9"` on a
non-existing device raises the `ValueError` and sends no POST payload. -/
theorem add_device_invalid_snmp_version_witness :
    add_device (Response.mk 404 [("status", JVal.jstr "error")])
        (fun _ => Response.mk 201 []) "host3" "public" "v9" =
      (AddDeviceOutcome.valueError "SNMP version isn\x27t correct", none) :=
  add_device_invalid_snmp_version (Response.mk 404 [("status", JVal.jstr "error")])
    (fun _ => Response.mk 201 []) "host3" "public" "v9" rfl (by decide)

/-- C8: when `add_device` reaches the POST request, the decoded JSON body
of the POST response is returned verbatim, whatever that response's status
code is — the result is the same for every status code `code`. -/
theorem add_device_returns_post_body_verbatim (getResp : Response)
    (code : Nat) (b : List (String × JVal)) (hostname community v : String)
    (hex : device_exists getResp = DeviceExistsOutcome.ok false)
    (hv : normalize_snmp v = "v1" ∨ normalize_snmp v = "v2c" ∨
      normalize_snmp v = "v3") :
    add_device getResp (fun _ => Response.mk code b) hostname community v =
      (AddDeviceOutcome.ret b,
       some (Payload.mk hostname community (normalize_snmp v))) := by
  rcases hv with h | h | h <;> simp [add_device, hex, h]

/-- Witness for C8: a POST response with status 500 and body
`{"result": 1}` is returned verbatim, with no branching on the 500. -/
theorem add_device_returns_post_body_verbatim_witness :
    add_device (Response.mk 404 [("status", JVal.jstr "error")])
        (fun _ => Response.mk 500 [("result", JVal.jnum 1)])
        "host3" "public" "v2c" =
      (AddDeviceOutcome.ret [("result", JVal.jnum 1)],
       some (Payload.mk "host3" "public" (normalize_snmp "v2c"))) :=
  add_device_returns_post_body_verbatim
    (Response.mk 404 [("status", JVal.jstr "error")]) 500
    [("result", JVal.jnum 1)] "host3" "public" "v2c" rfl
    (Or.inr (Or.inl rfl))

/-- C10: when the inner existence check finishes with anything but a
boolean — its `TypeError` or its `raise Exception(response)` — `add_device`
propagates that same failure and issues no POST request, whatever the SNMP
version argument is (the version check is never reached). -/
theorem add_device_propagates_exists_failure (getResp : Response)
    (post : Payload → Response) (hostname community v : String)
    (hex : ∀ b, device_exists getResp ≠ DeviceExistsOutcome.ok b) :
    add_device getResp post hostname community v =
      (AddDeviceOutcome.propagated (device_exists getResp), none) := by
  unfold add_device
  cases he : device_exists getResp with
  | ok b => exact absurd he (hex b)
  | typeError => rfl
  | exn r => rfl

/-- Witness for C10: a 500 lookup response makes `device_exists` raise the
generic failure, and `add_device` propagates it without a POST even though
the SNMP version `"bogus"` is invalid. -/
theorem add_device_propagates_exists_failure_witness :
    add_device (Response.mk 500 []) (fun _ => Response.mk 200 [])
        "host4" "public" "bogus" =
      (AddDeviceOutcome.propagated
        (DeviceExistsOutcome.exn (Response.mk 500 [])), none) :=
  add_device_propagates_exists_failure (Response.mk 500 [])
    (fun _ => Response.mk 200 []) "host4" "public" "bogus" (by decide)

theorem rstrip_slash_data (s : String) :
    (rstrip_slash s).data = s.data.rdropWhile (fun c => c = '/') := rfl

theorem rdropWhile_append_rtakeWhile {α : Type} (p : α → Bool) (l : List α) :
    l.rdropWhile p ++ l.rtakeWhile p = l := by
  rw [List.rdropWhile, List.rtakeWhile, ← List.reverse_append,
    List.takeWhile_append_dropWhile, List.reverse_reverse]

/-- C7: `LibreNMS.__init__` strips every trailing slash from the base URL
(the stripped prefix plus some run of slashes reassembles the input, and
the stripped prefix does not end in a slash), appends `/api/v0` exactly
once to form the stored base URL, stores the token and TLS flag as given,
and builds exactly the fixed header set. The constructor is a pure
function of its arguments: no request is modelled or made. -/
theorem mkClient_spec (base_url api_token : String) (ssl_verify : Bool) :
    (LibreNMS.mkClient base_url api_token ssl_verify).base_url =
        rstrip_slash base_url ++ "/api/v0"
    ∧ (∃ k, base_url.data = (rstrip_slash base_url).data ++ List.replicate k '/')
    ∧ (∀ h : (rstrip_slash base_url).data ≠ [],
        (rstrip_slash base_url).data.getLast h ≠ '/')
    ∧ (LibreNMS.mkClient base_url api_token ssl_verify).headers =
        [("X-Auth-Token", api_token),
         ("Content-Type", "application/json"),
         ("Accept", "application/json")]
    ∧ (LibreNMS.mkClient base_url api_token ssl_verify).api_token = api_token
    ∧ (LibreNMS.mkClient base_url api_token ssl_verify).ssl_verify = ssl_verify := by
  refine ⟨rfl, ⟨(base_url.data.rtakeWhile (fun c => c = '/')).length, ?_⟩,
    ?_, rfl, rfl, rfl⟩
  · have hrep : base_url.data.rtakeWhile (fun c => c = '/') =
        List.replicate (base_url.data.rtakeWhile (fun c => c = '/')).length '/' :=
      List.eq_replicate_of_mem (fun b hb => by
        simpa using List.mem_rtakeWhile_imp hb)
    rw [rstrip_slash_data, ← hrep, rdropWhile_append_rtakeWhile]
  · intro h
    have hlast := List.rdropWhile_last_not (fun c => decide (c = '/'))
      base_url.data h
    simpa using hlast
